import Mathlib

/-
Verification of the prometheus-weather-exporter sources against its design
specification.  The repository holds three variants of `main.go`:

* `src/main.go` — background refresh loop updating two hard-coded gauge
  vectors (`weather_temperature`, `weather_apparent_temperature`).
* `src/unnamed/part_000`, first file — a `prometheus.Collector`
  (`WeatherCollector`) whose `Collect` fetches the forecast for every
  configured location on every scrape.
* `src/unnamed/part_000`, second file — background refresh loop over a
  configurable map of gauge vectors, one per configured metric name.

The shared helpers (`getLocation`, `getWeather`, `getValueByFieldName`,
`LoadConfig`, the `%f` label formatting) are identical across the variants
and are embedded once.  Go `float64` values are modelled as rationals: the
program performs no arithmetic on them, it only passes them through and
formats coordinates with `fmt.Sprintf` using the `%f` verb (six fractional
digits).  Fallible Go functions returning `(T, error)` become `Except
String T`.  Outbound network calls (the Google Maps geocoder and the
Dark Sky forecast endpoint) are modelled by an explicit environment of
response functions, and every call issued is recorded in a trace list so
that claims about *when* upstream services are contacted are statable.
-/

/-- One entry of the response list returned by the Google Maps geocoding
API, reduced to the parts `getLocation` reads: the first address
component's long name (`resp[0].AddressComponents[0].LongName`) and the
geometry coordinates (`resp[0].Geometry.Location.Lat`, `.Lng`). -/
structure GeocodeResult where
  LongName : String
  Lat : ℚ
  Lng : ℚ
deriving DecidableEq

/-- Go struct `Location` (identical in all three variants): a location
identified by name, latitude and longitude. -/
structure Location where
  Name : String
  Lat : ℚ
  Lng : ℚ
deriving DecidableEq

/-- The fields of the forecast library's `DataPoint` that
`getValueByFieldName` reads (`fc.Currently` has this type). -/
structure DataPoint where
  Temperature : ℚ
  ApparentTemperature : ℚ
  WindSpeed : ℚ
  CloudCover : ℚ
  Humidity : ℚ
  PrecipIntensity : ℚ
deriving DecidableEq

/-- The forecast library's `Flags` struct, reduced to the `Units` field
read by `getWeather`. -/
structure ForecastFlags where
  Units : String
deriving DecidableEq

/-- The forecast library's `Forecast` struct, reduced to the fields the
program reads: the coordinates echoed by the forecast service
(`fc.Latitude`, `fc.Longitude`), the current conditions (`fc.Currently`)
and the response flags (`fc.Flags`). -/
structure Forecast where
  Latitude : ℚ
  Longitude : ℚ
  Currently : DataPoint
  Flags : ForecastFlags
deriving DecidableEq

deriving instance DecidableEq for Except

/-- The forecast library's unit-system constant `forecast.SI`, whose
string value is "si". -/
def forecastSI : String := "si"

/-- Decimal digit character for `n % 10`. -/
def natDigit (n : Nat) : Char := Nat.digitChar (n % 10)

/-- The six decimal digits of `n % 1000000`, most significant first. -/
def frac6 (n : Nat) : String :=
  String.mk [natDigit (n / 100000), natDigit (n / 10000), natDigit (n / 1000),
             natDigit (n / 100), natDigit (n / 10), natDigit n]

/-- Model of Go `fmt.Sprintf` with the `%f` verb on a `float64`: a decimal
string with exactly six fractional digits, the value rounded to the
nearest millionth (computed here on the rational's numerator and
denominator: `(2 * |num| * 1000000 + den) / (2 * den)` is
`⌊|q| * 1000000 + 1/2⌋`). -/
def formatF6 (q : ℚ) : String :=
  let m : Nat := (2 * q.num.natAbs * 1000000 + q.den) / (2 * q.den)
  (if q.num < 0 then "-" else "") ++ toString (m / 1000000) ++ "." ++ frac6 (m % 1000000)

/-- Go method `Location.LatString`: `fmt.Sprintf("%f", l.Lat)`. -/
def LatString (l : Location) : String := formatF6 l.Lat

/-- Go method `Location.LngString`: `fmt.Sprintf("%f", l.Lng)`. -/
def LngString (l : Location) : String := formatF6 l.Lng

/-- An outbound network call to an upstream service: a geocoding request
for a location name, or a forecast request for formatted coordinates.
Traces of these record when the program contacts upstream services. -/
inductive UpstreamCall where
  | geocode (locName : String)
  | forecastGet (lat lng : String)
deriving DecidableEq

/-- The environment of upstream services: the Google Maps geocoder
(`maps.Client.Geocode`, errors folded together with `maps.NewClient`
errors) and the Dark Sky forecast endpoint (`forecast.Get`, keyed by the
formatted latitude/longitude strings the program passes). -/
structure Env where
  geocode : String → Except String (List GeocodeResult)
  forecastGet : String → String → Except String Forecast

/-- Go function `getLocation` (identical in all variants): issues one
geocoding request; an empty response list is the error "no location found
for '<name>'"; otherwise the first result's long name and coordinates
form the `Location`.  The first component is the trace of upstream calls
made. -/
def getLocation (env : Env) (locName : String) : List UpstreamCall × Except String Location :=
  ([UpstreamCall.geocode locName],
    match env.geocode locName with
    | Except.error e => Except.error e
    | Except.ok [] => Except.error ("no location found for '" ++ locName ++ "'")
    | Except.ok (r :: _) => Except.ok (Location.mk r.LongName r.Lat r.Lng))

/-- Go function `getWeather` (identical in all variants): resolve the
location name (wrapping errors as "GMaps search failed"), fetch the
forecast at the formatted coordinates (wrapping errors as "forecast
request failed"), then reject the reading wholesale when
`fc.Flags.Units != string(forecast.SI)`.  The first component is the
trace of upstream calls made. -/
def getWeather (env : Env) (locName : String) : List UpstreamCall × Except String Forecast :=
  match getLocation env locName with
  | (tr, Except.error e) => (tr, Except.error ("GMaps search failed: " ++ e))
  | (tr, Except.ok loc) =>
    match env.forecastGet (LatString loc) (LngString loc) with
    | Except.error e =>
      (tr ++ [UpstreamCall.forecastGet (LatString loc) (LngString loc)],
       Except.error ("forecast request failed: " ++ e))
    | Except.ok fc =>
      (tr ++ [UpstreamCall.forecastGet (LatString loc) (LngString loc)],
       if fc.Flags.Units ≠ forecastSI then
         Except.error ("units are not SI: got " ++ fc.Flags.Units)
       else
         Except.ok fc)

/-- Go function `getValueByFieldName` (identical in both `part_000`
variants): a switch on the field name over a closed set of supported
fields; any other name is the error "unsupported field '<name>'". -/
def getValueByFieldName (field : String) (dp : DataPoint) : Except String ℚ :=
  if field = "temperature" then Except.ok dp.Temperature
  else if field = "apparent_temperature" then Except.ok dp.ApparentTemperature
  else if field = "wind_speed" then Except.ok dp.WindSpeed
  else if field = "cloud_cover" then Except.ok dp.CloudCover
  else if field = "humidity" then Except.ok dp.Humidity
  else if field = "precip_intensity" then Except.ok dp.PrecipIntensity
  else Except.error ("unsupported field '" ++ field ++ "'")

/-- The closed set of field names `getValueByFieldName` supports, in the
order of its switch cases. -/
def supportedFields : List String :=
  ["temperature", "apparent_temperature", "wind_speed", "cloud_cover",
   "humidity", "precip_intensity"]

/-- A `prometheus.Desc` as built by `getDescs`: fully-qualified metric
name, help string, and the ordered variable label names. -/
structure Desc where
  fqName : String
  help : String
  variableLabels : List String
deriving DecidableEq

/-- Go `strings.Replace(key, "_", " ", -1)`: every underscore becomes a
space. -/
def replaceUnderscores (s : String) : String :=
  String.map (fun c => if c = '_' then ' ' else c) s

/-- Go function `getDescs` (collector variant): one `prometheus.Desc` per
configured metric name, metric name `weather_<key>`, help string from the
key with underscores replaced by spaces, and the variable labels
`location`, `latitude`, `longitude`.  The Go map is modelled as an
association list in configuration order. -/
def getDescs (metrics : List String) : List (String × Desc) :=
  metrics.map (fun key =>
    (key, Desc.mk ("weather_" ++ key)
      ("Weather forecast - " ++ replaceUnderscores key)
      ["location", "latitude", "longitude"]))

/-- A metric sample as sent on the collector channel: metric name, gauge
value, and label pairs. -/
structure MetricSample where
  name : String
  value : ℚ
  labels : List (String × String)
deriving DecidableEq

/-- Go `prometheus.MustNewConstMetric(desc, prometheus.GaugeValue, val,
labelValues...)`: pairs the descriptor's variable label names with the
given label values. -/
def constMetric (d : Desc) (val : ℚ) (labelValues : List String) : MetricSample :=
  MetricSample.mk d.fqName val (d.variableLabels.zip labelValues)

/-- The per-location body of `WeatherCollector.Collect` (collector
variant): fetch the weather for the configured location name; on error,
log and emit nothing; on success, for each descriptor extract the field
value, skipping (with a log line) any field `getValueByFieldName` rejects,
and emit a const gauge metric labelled with the configured location name
and the forecast response's formatted coordinates.  The first component
is the trace of upstream calls made while handling the scrape. -/
def CollectLoc (env : Env) (descs : List (String × Desc)) (loc : String) :
    List UpstreamCall × List MetricSample :=
  ((getWeather env loc).fst,
   match (getWeather env loc).snd with
   | Except.error _ => []
   | Except.ok fc =>
     descs.filterMap (fun kd =>
       match getValueByFieldName kd.fst fc.Currently with
       | Except.error _ => none
       | Except.ok val =>
         some (constMetric kd.snd val
           [loc, formatF6 fc.Latitude, formatF6 fc.Longitude])))

/-- Go method `WeatherCollector.Collect` (collector variant): iterate
every configured location, concatenating upstream-call traces and emitted
samples.  This runs on every scrape of the exposition endpoint. -/
def Collect (env : Env) (descs : List (String × Desc)) (locations : List String) :
    List UpstreamCall × List MetricSample :=
  locations.foldl (fun acc loc =>
    (acc.fst ++ (CollectLoc env descs loc).fst,
     acc.snd ++ (CollectLoc env descs loc).snd)) ([], [])

/-- The identity of one gauge child in a `prometheus.GaugeVec`
(background-loop variants): the metric key and the three label values
passed to `WithLabelValues`. -/
structure GaugeKey where
  metric : String
  location : String
  latitude : String
  longitude : String
deriving DecidableEq

/-- The state of all registered gauge vectors: a partial map from gauge
child identity to the value last `Set`.  This is what the exposition
endpoint of the background-loop variants serves. -/
def GaugeStore : Type := GaugeKey → Option ℚ

/-- The store at process start: no gauge child has been created. -/
def emptyStore : GaugeStore := fun _ => none

/-- Go `gauge.WithLabelValues(...).Set(val)`: overwrite the value of one
gauge child, leaving every other child unchanged. -/
def setGauge (s : GaugeStore) (k : GaugeKey) (v : ℚ) : GaugeStore :=
  fun k2 => if k2 = k then some v else s k2

/-- The inner metric loop of the background-loop variant
(`for key, gauge := range gauges`): for each configured metric name,
extract the field value, skipping (with a log line) any field
`getValueByFieldName` rejects, and `Set` the gauge child labelled with
the configured location name and the forecast response's formatted
coordinates. -/
def writeMetrics (metrics : List String) (loc : String) (fc : Forecast) (s : GaugeStore) :
    GaugeStore :=
  metrics.foldl (fun st key =>
    match getValueByFieldName key fc.Currently with
    | Except.error _ => st
    | Except.ok val =>
      setGauge st (GaugeKey.mk key loc (formatF6 fc.Latitude) (formatF6 fc.Longitude)) val) s

/-- The per-location body of the background refresh loop: fetch the
weather; on error, log and leave the store untouched; on success, run the
metric loop. -/
def updateLoc (env : Env) (metrics : List String) (s : GaugeStore) (loc : String) : GaugeStore :=
  match (getWeather env loc).snd with
  | Except.error _ => s
  | Except.ok fc => writeMetrics metrics loc fc s

/-- One full refresh cycle of the background loop: every configured
location in order, each isolated by `updateLoc`. -/
def runCycle (env : Env) (metrics : List String) (locations : List String) (s : GaugeStore) :
    GaugeStore :=
  locations.foldl (updateLoc env metrics) s

/-- Go `encoding/json` decoding of the forecast response's current data
point: a numeric field absent from the JSON object is left at the Go zero
value `0.0` of the `float64` struct field; a present field takes the
decoded value. -/
def decodeDataPoint (t a w c h p : Option ℚ) : DataPoint :=
  DataPoint.mk (t.getD 0) (a.getD 0) (w.getD 0) (c.getD 0) (h.getD 0) (p.getD 0)

/-- Go struct `Config` (the `part_000` variants): configured location
names, configured metric names, and the two API credentials. -/
structure Config where
  Locations : List String
  Metrics : List String
  GoogleMapsAPIKey : String
  DarkskyAPIKey : String
deriving DecidableEq

/-- The outcome of `main` before the HTTP server:  `fatal msg` models
`log.Fatalf` (the process terminates, the server never starts); `serve`
models reaching `http.ListenAndServe` with the registered collector
state. -/
inductive StartupOutcome where
  | fatal (msg : String)
  | serve (locations : List String) (descs : List (String × Desc))
deriving DecidableEq

/-- The startup sequence of `main` (collector variant of `part_000`; the
second variant's startup checks are identical, and `src/main.go` shares
the configuration-load and registration failure handling): load the
configuration (fatal on error), reject an empty location list, reject an
empty metric list, register the collector (fatal on a registration
error), and only then start the HTTP server. -/
def mainStartup (configResult : Except String Config) (registerErr : Option String) :
    StartupOutcome :=
  match configResult with
  | Except.error e => StartupOutcome.fatal ("Failed to load configuration file: " ++ e)
  | Except.ok config =>
    if config.Locations.length = 0 then
      StartupOutcome.fatal "Must specify at least one location"
    else if config.Metrics.length = 0 then
      StartupOutcome.fatal "Must specify at least one metric"
    else
      match registerErr with
      | some e => StartupOutcome.fatal ("Failed to register weather collector: " ++ e)
      | none => StartupOutcome.serve config.Locations (getDescs config.Metrics)

/-- Integer-valued rational, in constructor form. -/
def ratInt (n : Int) : ℚ := Rat.mk' n 1 (by decide) (Nat.coprime_one_right _)

/-- The property of a string of having exactly six fractional digits: it
splits at a dot whose suffix is six characters, none of which is a dot. -/
def sixFracDigits (s : String) : Prop :=
  ∃ pre frac, s = pre ++ "." ++ frac ∧ frac.length = 6 ∧ '.' ∉ frac.data

/-- A data point whose six fields all hold the Go zero value. -/
def dp0 : DataPoint :=
  DataPoint.mk (ratInt 0) (ratInt 0) (ratInt 0) (ratInt 0) (ratInt 0) (ratInt 0)

/-- The rational 12.3, the temperature of the spec's Scenario A. -/
def qTemp : ℚ := Rat.mk' 123 10 (by decide) (by decide)

/-- A forecast reading in SI units at echoed coordinates (2, 3). -/
def fcA : Forecast :=
  Forecast.mk (ratInt 2) (ratInt 3)
    (DataPoint.mk qTemp (ratInt 11) (ratInt 4) (ratInt 5) (ratInt 6) (ratInt 7))
    (ForecastFlags.mk "si")

/-- An environment where geocoding any name resolves to display name
"Dublin City" at (2, 3) and the forecast service returns `fcA`. -/
def envA : Env :=
  Env.mk (fun _ => Except.ok [GeocodeResult.mk "Dublin City" (ratInt 2) (ratInt 3)])
    (fun _ _ => Except.ok fcA)

/-- A forecast reading whose unit system is "us", not the expected SI. -/
def fcB : Forecast :=
  Forecast.mk (ratInt 2) (ratInt 3)
    (DataPoint.mk qTemp (ratInt 11) (ratInt 4) (ratInt 5) (ratInt 6) (ratInt 7))
    (ForecastFlags.mk "us")

/-- An environment whose forecast service answers with the mismatched
unit system reading `fcB`. -/
def envB : Env :=
  Env.mk (fun _ => Except.ok [GeocodeResult.mk "Dublin City" (ratInt 2) (ratInt 3)])
    (fun _ _ => Except.ok fcB)

/-- An environment whose geocoder always fails. -/
def envErr : Env :=
  Env.mk (fun _ => Except.error "boom") (fun _ _ => Except.error "unreachable")

/-- A store holding one entry from an earlier successful cycle. -/
def sPrior : GaugeStore :=
  setGauge emptyStore (GaugeKey.mk "temperature" "Dublin" "2.000000" "3.000000") qTemp

/-- A second-cycle reading at the same echoed coordinates as `fcA` with a
different temperature. -/
def fcA2 : Forecast :=
  Forecast.mk (ratInt 2) (ratInt 3)
    (DataPoint.mk (ratInt 13) (ratInt 11) (ratInt 4) (ratInt 5) (ratInt 6) (ratInt 7))
    (ForecastFlags.mk "si")

/-- The environment of the second cycle delivering `fcA2`. -/
def envA2 : Env :=
  Env.mk (fun _ => Except.ok [GeocodeResult.mk "Dublin City" (ratInt 2) (ratInt 3)])
    (fun _ _ => Except.ok fcA2)

/-- A first-cycle reading echoing latitude 1, temperature 10. -/
def fcC1 : Forecast :=
  Forecast.mk (ratInt 1) (ratInt 3)
    (DataPoint.mk (ratInt 10) (ratInt 0) (ratInt 0) (ratInt 0) (ratInt 0) (ratInt 0))
    (ForecastFlags.mk "si")

/-- A second-cycle reading echoing latitude 2, temperature 20. -/
def fcC2 : Forecast :=
  Forecast.mk (ratInt 2) (ratInt 3)
    (DataPoint.mk (ratInt 20) (ratInt 0) (ratInt 0) (ratInt 0) (ratInt 0) (ratInt 0))
    (ForecastFlags.mk "si")

/-- The environment of the first cycle delivering `fcC1`. -/
def envC1 : Env :=
  Env.mk (fun _ => Except.ok [GeocodeResult.mk "Dublin City" (ratInt 2) (ratInt 3)])
    (fun _ _ => Except.ok fcC1)

/-- The environment of the second cycle delivering `fcC2`. -/
def envC2 : Env :=
  Env.mk (fun _ => Except.ok [GeocodeResult.mk "Dublin City" (ratInt 2) (ratInt 3)])
    (fun _ _ => Except.ok fcC2)

/-- A forecast reading decoded from a JSON response that carries none of
the six supported numeric fields. -/
def fcZero : Forecast :=
  Forecast.mk (ratInt 0) (ratInt 0)
    (decodeDataPoint none none none none none none) (ForecastFlags.mk "si")

/-- The environment delivering the all-fields-absent reading `fcZero`. -/
def envZero : Env :=
  Env.mk (fun _ => Except.ok [GeocodeResult.mk "X" (ratInt 0) (ratInt 0)])
    (fun _ _ => Except.ok fcZero)

/-- A reading whose echoed coordinates (2, 3) differ from the geocoder
coordinates (1, 3) of `envD`. -/
def fcD : Forecast :=
  Forecast.mk (ratInt 2) (ratInt 3)
    (DataPoint.mk qTemp (ratInt 11) (ratInt 4) (ratInt 5) (ratInt 6) (ratInt 7))
    (ForecastFlags.mk "si")

/-- An environment where the geocoder resolves to latitude 1 but the
forecast service echoes latitude 2 in `fcD`. -/
def envD : Env :=
  Env.mk (fun _ => Except.ok [GeocodeResult.mk "Dublin City" (ratInt 1) (ratInt 3)])
    (fun _ _ => Except.ok fcD)

theorem natDigit_ne_dot (n : Nat) : natDigit n ≠ '.' := by
  have h : ∀ d, d < 10 → Nat.digitChar d ≠ '.' := by decide
  exact h (n % 10) (Nat.mod_lt _ (by decide))

theorem frac6_length (n : Nat) : (frac6 n).length = 6 := rfl

theorem frac6_no_dot (n : Nat) : '.' ∉ (frac6 n).data := by
  intro h
  have h2 : '.' ∈ [natDigit (n / 100000), natDigit (n / 10000), natDigit (n / 1000),
      natDigit (n / 100), natDigit (n / 10), natDigit n] := h
  simp only [List.mem_cons, List.not_mem_nil, or_false] at h2
  rcases h2 with h2 | h2 | h2 | h2 | h2 | h2
  all_goals exact natDigit_ne_dot _ h2.symm

theorem formatF6_sixFrac (q : ℚ) : sixFracDigits (formatF6 q) := by
  refine ⟨(if q.num < 0 then "-" else "") ++
      toString ((2 * q.num.natAbs * 1000000 + q.den) / (2 * q.den) / 1000000),
    frac6 ((2 * q.num.natAbs * 1000000 + q.den) / (2 * q.den) % 1000000),
    ?_, frac6_length _, frac6_no_dot _⟩
  simp [formatF6, String.append_assoc]

theorem getWeather_snd_ok (env : Env) (locName nm : String) (glat glng : ℚ)
    (rs : List GeocodeResult) (fc : Forecast)
    (hg : env.geocode locName = Except.ok (GeocodeResult.mk nm glat glng :: rs))
    (hf : env.forecastGet (formatF6 glat) (formatF6 glng) = Except.ok fc)
    (hu : fc.Flags.Units = forecastSI) :
    (getWeather env locName).snd = Except.ok fc := by
  unfold getWeather getLocation
  rw [hg]
  dsimp only [LatString, LngString]
  rw [hf]
  simp [hu]

theorem getWeather_snd_mismatch (env : Env) (locName nm : String) (glat glng : ℚ)
    (rs : List GeocodeResult) (fc : Forecast)
    (hg : env.geocode locName = Except.ok (GeocodeResult.mk nm glat glng :: rs))
    (hf : env.forecastGet (formatF6 glat) (formatF6 glng) = Except.ok fc)
    (hu : fc.Flags.Units ≠ forecastSI) :
    (getWeather env locName).snd =
      Except.error ("units are not SI: got " ++ fc.Flags.Units) := by
  unfold getWeather getLocation
  rw [hg]
  dsimp only [LatString, LngString]
  rw [hf]
  simp [hu]

theorem writeMetrics_nil (loc : String) (fc : Forecast) (s : GaugeStore) :
    writeMetrics [] loc fc s = s := rfl

theorem writeMetrics_cons (m : String) (rest : List String) (loc : String) (fc : Forecast)
    (s : GaugeStore) :
    writeMetrics (m :: rest) loc fc s =
      writeMetrics rest loc fc
        (match getValueByFieldName m fc.Currently with
         | Except.error _ => s
         | Except.ok val =>
           setGauge s (GaugeKey.mk m loc (formatF6 fc.Latitude) (formatF6 fc.Longitude)) val) :=
  rfl

theorem writeMetrics_frame (metrics : List String) (loc : String) (fc : Forecast)
    (s : GaugeStore) (k : GaugeKey) (h : k.location ≠ loc ∨ k.metric ∉ metrics) :
    writeMetrics metrics loc fc s k = s k := by
  induction metrics generalizing s with
  | nil => rfl
  | cons m rest ih =>
    rw [writeMetrics_cons]
    have hrest : k.location ≠ loc ∨ k.metric ∉ rest := by
      rcases h with h1 | h2
      · exact Or.inl h1
      · exact Or.inr (fun hm => h2 (List.mem_cons_of_mem _ hm))
    have hne : k ≠ GaugeKey.mk m loc (formatF6 fc.Latitude) (formatF6 fc.Longitude) := by
      intro hk
      rcases h with h1 | h2
      · exact h1 (by rw [hk])
      · exact h2 (by rw [hk]; exact List.mem_cons_self _ _)
    rw [ih _ hrest]
    cases hv : getValueByFieldName m fc.Currently with
    | error e => rfl
    | ok v => simp [setGauge, hne]

theorem writeMetrics_read (metrics : List String) (loc : String) (fc : Forecast)
    (s : GaugeStore) (m : String) (v : ℚ) (hm : m ∈ metrics)
    (hv : getValueByFieldName m fc.Currently = Except.ok v) :
    writeMetrics metrics loc fc s
      (GaugeKey.mk m loc (formatF6 fc.Latitude) (formatF6 fc.Longitude)) = some v := by
  induction metrics generalizing s with
  | nil => exact absurd hm (List.not_mem_nil _)
  | cons m2 rest ih =>
    rw [writeMetrics_cons]
    by_cases hrest : m ∈ rest
    · exact ih _ hrest
    · have hm2 : m = m2 := by
        rcases List.mem_cons.mp hm with h | h
        · exact h
        · exact absurd h hrest
      subst hm2
      rw [writeMetrics_frame _ _ _ _ _ (Or.inr hrest), hv]
      simp [setGauge]

theorem writeMetrics_mod (metrics : List String) (loc : String) (fc : Forecast)
    (s : GaugeStore) (k : GaugeKey) (h : writeMetrics metrics loc fc s k ≠ s k) :
    k.location = loc ∧ k.latitude = formatF6 fc.Latitude ∧
      k.longitude = formatF6 fc.Longitude := by
  induction metrics generalizing s with
  | nil => exact absurd rfl h
  | cons m rest ih =>
    rw [writeMetrics_cons] at h
    by_cases hstep :
        (match getValueByFieldName m fc.Currently with
         | Except.error _ => s
         | Except.ok val =>
           setGauge s (GaugeKey.mk m loc (formatF6 fc.Latitude) (formatF6 fc.Longitude)) val) k
        = s k
    · exact ih _ (fun he => h (he.trans hstep))
    · cases hv : getValueByFieldName m fc.Currently with
      | error e => rw [hv] at hstep; exact absurd rfl hstep
      | ok v =>
        rw [hv] at hstep
        by_cases hk : k = GaugeKey.mk m loc (formatF6 fc.Latitude) (formatF6 fc.Longitude)
        · rw [hk]
          exact ⟨rfl, rfl, rfl⟩
        · exact absurd (by simp [setGauge, hk]) hstep

theorem runCycle_nil (env : Env) (metrics : List String) (s : GaugeStore) :
    runCycle env metrics [] s = s := rfl

theorem runCycle_cons (env : Env) (metrics : List String) (l : String)
    (rest : List String) (s : GaugeStore) :
    runCycle env metrics (l :: rest) s = runCycle env metrics rest (updateLoc env metrics s l) :=
  rfl

theorem updateLoc_err (env : Env) (metrics : List String) (s : GaugeStore) (loc : String)
    (e : String) (hw : (getWeather env loc).snd = Except.error e) :
    updateLoc env metrics s loc = s := by
  unfold updateLoc
  rw [hw]

theorem updateLoc_ok (env : Env) (metrics : List String) (s : GaugeStore) (loc : String)
    (fc : Forecast) (hw : (getWeather env loc).snd = Except.ok fc) :
    updateLoc env metrics s loc = writeMetrics metrics loc fc s := by
  unfold updateLoc
  rw [hw]

theorem collectLoc_snd_ok (env : Env) (descs : List (String × Desc)) (loc : String)
    (fc : Forecast) (hw : (getWeather env loc).snd = Except.ok fc) :
    (CollectLoc env descs loc).snd =
      descs.filterMap (fun kd =>
        match getValueByFieldName kd.fst fc.Currently with
        | Except.error _ => none
        | Except.ok val =>
          some (constMetric kd.snd val
            [loc, formatF6 fc.Latitude, formatF6 fc.Longitude])) := by
  unfold CollectLoc
  rw [hw]

theorem collectLoc_snd_err (env : Env) (descs : List (String × Desc)) (loc : String)
    (e : String) (hw : (getWeather env loc).snd = Except.error e) :
    (CollectLoc env descs loc).snd = [] := by
  unfold CollectLoc
  rw [hw]

theorem collect_sample_shape (env : Env) (metrics : List String) (loc : String)
    (fc : Forecast) (sample : MetricSample)
    (hw : (getWeather env loc).snd = Except.ok fc)
    (hs : sample ∈ (CollectLoc env (getDescs metrics) loc).snd) :
    ∃ m, m ∈ metrics ∧ ∃ v, getValueByFieldName m fc.Currently = Except.ok v ∧
      sample = MetricSample.mk ("weather_" ++ m) v
        [("location", loc), ("latitude", formatF6 fc.Latitude),
         ("longitude", formatF6 fc.Longitude)] := by
  rw [collectLoc_snd_ok env _ loc fc hw] at hs
  rcases List.mem_filterMap.mp hs with ⟨kd, hkd, hf⟩
  rcases List.mem_map.mp hkd with ⟨m, hm, hpair⟩
  refine ⟨m, hm, ?_⟩
  cases hv : getValueByFieldName kd.fst fc.Currently with
  | error e => rw [hv] at hf; exact absurd hf (by simp)
  | ok v =>
    rw [hv] at hf
    have hfst : kd.fst = m := by rw [← hpair]
    rw [hfst] at hv
    refine ⟨v, hv, ?_⟩
    have hsnd : kd.snd = Desc.mk ("weather_" ++ m)
        ("Weather forecast - " ++ replaceUnderscores m)
        ["location", "latitude", "longitude"] := by rw [← hpair]
    have := Option.some.inj hf
    rw [← this, hsnd]
    rfl

theorem collectLoc_getDescs_append (env : Env) (loc : String) (fc : Forecast)
    (xs ys : List String) (hw : (getWeather env loc).snd = Except.ok fc) :
    (CollectLoc env (getDescs (xs ++ ys)) loc).snd =
      (CollectLoc env (getDescs xs) loc).snd ++ (CollectLoc env (getDescs ys) loc).snd := by
  rw [collectLoc_snd_ok env _ loc fc hw, collectLoc_snd_ok env _ loc fc hw,
    collectLoc_snd_ok env _ loc fc hw]
  unfold getDescs
  rw [List.map_append, List.filterMap_append]

theorem collectLoc_single_bad (env : Env) (loc : String) (fc : Forecast) (bad e : String)
    (hw : (getWeather env loc).snd = Except.ok fc)
    (hbad : getValueByFieldName bad fc.Currently = Except.error e) :
    (CollectLoc env (getDescs [bad]) loc).snd = [] := by
  rw [collectLoc_snd_ok env _ loc fc hw]
  simp [getDescs, List.filterMap_cons, hbad]

/-- C1: evaluation of the collector variant at the failing input.  In the
`WeatherCollector` variant the exposition endpoint's read path is
`Collect`, and handling a single scrape with one configured location
issues a geocoding call and a forecast call: the upstream-call trace of
the scrape is non-empty, so a read request does contact the location
resolver and the forecast client, against the claim. -/
theorem c1_scrape_contacts_upstream :
    (Collect envA (getDescs ["temperature"]) ["Dublin"]).fst =
      [UpstreamCall.geocode "Dublin", UpstreamCall.forecastGet "2.000000" "3.000000"] ∧
    (Collect envA (getDescs ["temperature"]) ["Dublin"]).fst ≠ [] :=
  ⟨by decide, by decide⟩

/-- C2: a fetched reading whose unit system differs from the expected SI
is discarded wholesale: `getWeather` returns the units error, the
background-loop variant leaves the gauge store exactly as it was for that
location's cycle, and the collector variant emits no sample at all for
that location. -/
theorem c2_unit_mismatch_discards (env : Env) (locName nm : String) (glat glng : ℚ)
    (rs : List GeocodeResult) (fc : Forecast) (metrics : List String)
    (descs : List (String × Desc)) (s : GaugeStore)
    (hg : env.geocode locName = Except.ok (GeocodeResult.mk nm glat glng :: rs))
    (hf : env.forecastGet (formatF6 glat) (formatF6 glng) = Except.ok fc)
    (hu : fc.Flags.Units ≠ forecastSI) :
    (getWeather env locName).snd =
      Except.error ("units are not SI: got " ++ fc.Flags.Units) ∧
    updateLoc env metrics s locName = s ∧
    (CollectLoc env descs locName).snd = [] := by
  have hw := getWeather_snd_mismatch env locName nm glat glng rs fc hg hf hu
  exact ⟨hw, updateLoc_err env metrics s locName _ hw,
    collectLoc_snd_err env descs locName _ hw⟩

theorem c2_witness :
    (getWeather envB "Dublin").snd = Except.error "units are not SI: got us" ∧
    updateLoc envB ["temperature"] emptyStore "Dublin" = emptyStore ∧
    (CollectLoc envB (getDescs ["temperature"]) "Dublin").snd = [] :=
  c2_unit_mismatch_discards envB "Dublin" "Dublin City" (ratInt 2) (ratInt 3) [] fcB
    ["temperature"] (getDescs ["temperature"]) emptyStore rfl rfl (by decide)

/-- C3: per-metric failure isolation in a scrape of the collector variant:
a configured metric name that `getValueByFieldName` rejects contributes
nothing and changes nothing — the emitted samples equal those of the same
configuration without the bad name — and every remaining configured
metric that extracts successfully is still published for the same
location in the same cycle. -/
theorem c3_unsupported_metric_isolated (env : Env) (loc : String) (fc : Forecast)
    (ms1 ms2 : List String) (bad e : String)
    (hw : (getWeather env loc).snd = Except.ok fc)
    (hbad : getValueByFieldName bad fc.Currently = Except.error e) :
    (CollectLoc env (getDescs (ms1 ++ bad :: ms2)) loc).snd =
      (CollectLoc env (getDescs (ms1 ++ ms2)) loc).snd ∧
    ∀ m v, m ∈ ms1 ++ ms2 → getValueByFieldName m fc.Currently = Except.ok v →
      MetricSample.mk ("weather_" ++ m) v
        [("location", loc), ("latitude", formatF6 fc.Latitude),
         ("longitude", formatF6 fc.Longitude)] ∈
        (CollectLoc env (getDescs (ms1 ++ bad :: ms2)) loc).snd := by
  constructor
  · have hsplit : (CollectLoc env (getDescs (bad :: ms2)) loc).snd =
        (CollectLoc env (getDescs [bad]) loc).snd ++ (CollectLoc env (getDescs ms2) loc).snd :=
      collectLoc_getDescs_append env loc fc [bad] ms2 hw
    rw [collectLoc_getDescs_append env loc fc ms1 (bad :: ms2) hw, hsplit,
      collectLoc_single_bad env loc fc bad e hw hbad, List.nil_append,
      ← collectLoc_getDescs_append env loc fc ms1 ms2 hw]
  · intro m v hmv hv
    rw [collectLoc_snd_ok env _ loc fc hw]
    refine List.mem_filterMap.mpr ⟨(m, Desc.mk ("weather_" ++ m)
      ("Weather forecast - " ++ replaceUnderscores m)
      ["location", "latitude", "longitude"]), ?_, ?_⟩
    · unfold getDescs
      refine List.mem_map.mpr ⟨m, ?_, rfl⟩
      rcases List.mem_append.mp hmv with h1 | h2
      · exact List.mem_append.mpr (Or.inl h1)
      · exact List.mem_append.mpr (Or.inr (List.mem_cons_of_mem _ h2))
    · dsimp only
      rw [hv]
      rfl

theorem c3_witness :
    (CollectLoc envA (getDescs ["temperature", "bogus_field", "humidity"]) "Dublin").snd =
      (CollectLoc envA (getDescs ["temperature", "humidity"]) "Dublin").snd ∧
    MetricSample.mk "weather_humidity" (ratInt 6)
      [("location", "Dublin"), ("latitude", "2.000000"), ("longitude", "3.000000")] ∈
      (CollectLoc envA (getDescs ["temperature", "bogus_field", "humidity"]) "Dublin").snd := by
  have h := c3_unsupported_metric_isolated envA "Dublin" fcA ["temperature"] ["humidity"]
    "bogus_field" "unsupported field 'bogus_field'" (by decide) (by decide)
  exact ⟨h.1, h.2 "humidity" (ratInt 6) (by decide) (by decide)⟩

/-- C4: when `getWeather` fails for a location, the background-loop
variant writes nothing for it: `updateLoc` is the identity on the store,
and across a whole cycle every store entry whose location label is the
failed location is untouched — a prior entry persists unchanged. -/
theorem c4_failed_location_preserves_store (env : Env) (metrics locations : List String)
    (s : GaugeStore) (loc e : String)
    (hw : (getWeather env loc).snd = Except.error e) :
    updateLoc env metrics s loc = s ∧
    ∀ k : GaugeKey, k.location = loc → runCycle env metrics locations s k = s k := by
  refine ⟨updateLoc_err env metrics s loc e hw, ?_⟩
  intro k hk
  induction locations generalizing s with
  | nil => rfl
  | cons l rest ih =>
    rw [runCycle_cons]
    have hstep : updateLoc env metrics s l k = s k := by
      cases hwl : (getWeather env l).snd with
      | error e2 => rw [updateLoc_err env metrics s l e2 hwl]
      | ok fc =>
        have hne : k.location ≠ l := by
          intro hkl
          rw [hkl] at hk
          rw [hk] at hwl
          rw [hw] at hwl
          simp at hwl
        rw [updateLoc_ok env metrics s l fc hwl]
        exact writeMetrics_frame metrics l fc s k (Or.inl hne)
    exact (ih (updateLoc env metrics s l)).trans hstep

theorem c4_witness :
    updateLoc envErr ["temperature"] sPrior "Dublin" = sPrior ∧
    runCycle envErr ["temperature"] ["Dublin"] sPrior
      (GaugeKey.mk "temperature" "Dublin" "2.000000" "3.000000") = some qTemp := by
  have h := c4_failed_location_preserves_store envErr ["temperature"] ["Dublin"] sPrior
    "Dublin" "GMaps search failed: boom" (by decide)
  refine ⟨h.1, ?_⟩
  rw [h.2 (GaugeKey.mk "temperature" "Dublin" "2.000000" "3.000000") rfl]
  decide

/-- C5 counterexample: with configured location name "Dublin" resolving to
the display name "Dublin City", the published sample's location label is
the configured name "Dublin" and not the resolved display name, refuting
the claim that the location label holds the resolver's display name. -/
theorem c5_counterexample :
    (CollectLoc envA (getDescs ["temperature"]) "Dublin").snd =
      [MetricSample.mk "weather_temperature" qTemp
        [("location", "Dublin"), ("latitude", "2.000000"), ("longitude", "3.000000")]] ∧
    (getLocation envA "Dublin").snd =
      Except.ok (Location.mk "Dublin City" (ratInt 2) (ratInt 3)) ∧
    "Dublin" ≠ "Dublin City" :=
  ⟨by decide, by decide, by decide⟩

/-- C5 (amended): every published sample for a configured field name F is
named weather_F and carries exactly three labels — location holding the
configured location name (not the resolver's display name), and latitude
and longitude holding the forecast response's coordinates formatted as
decimal strings with six fractional digits. -/
theorem c5_sample_shape (env : Env) (metrics : List String) (loc : String)
    (fc : Forecast) (sample : MetricSample)
    (hw : (getWeather env loc).snd = Except.ok fc)
    (hs : sample ∈ (CollectLoc env (getDescs metrics) loc).snd) :
    (∃ m, m ∈ metrics ∧ ∃ v, getValueByFieldName m fc.Currently = Except.ok v ∧
      sample = MetricSample.mk ("weather_" ++ m) v
        [("location", loc), ("latitude", formatF6 fc.Latitude),
         ("longitude", formatF6 fc.Longitude)]) ∧
    sample.labels.length = 3 ∧
    sixFracDigits (formatF6 fc.Latitude) ∧ sixFracDigits (formatF6 fc.Longitude) := by
  rcases collect_sample_shape env metrics loc fc sample hw hs with ⟨m, hm, v, hv, hsample⟩
  refine ⟨⟨m, hm, v, hv, hsample⟩, ?_, formatF6_sixFrac _, formatF6_sixFrac _⟩
  rw [hsample]
  rfl

theorem c5_witness :
    (MetricSample.mk "weather_temperature" qTemp
      [("location", "Dublin"), ("latitude", "2.000000"),
       ("longitude", "3.000000")]).labels.length = 3 ∧
    sixFracDigits "2.000000" := by
  have h := c5_sample_shape envA ["temperature"] "Dublin" fcA
    (MetricSample.mk "weather_temperature" qTemp
      [("location", "Dublin"), ("latitude", "2.000000"), ("longitude", "3.000000")])
    (by decide) (by decide)
  exact ⟨h.2.1, h.2.2.1⟩

/-- C6: `getValueByFieldName` is a pure total function over a closed
enumeration: each of the six supported field names yields exactly the
corresponding field of the data point with no error, and every other
field name yields the "unsupported field" error — it is a plain function
of its two arguments, mutating nothing and total (it cannot crash its
caller). -/
theorem c6_closed_enumeration (field : String) (dp : DataPoint) :
    getValueByFieldName "temperature" dp = Except.ok dp.Temperature ∧
    getValueByFieldName "apparent_temperature" dp = Except.ok dp.ApparentTemperature ∧
    getValueByFieldName "wind_speed" dp = Except.ok dp.WindSpeed ∧
    getValueByFieldName "cloud_cover" dp = Except.ok dp.CloudCover ∧
    getValueByFieldName "humidity" dp = Except.ok dp.Humidity ∧
    getValueByFieldName "precip_intensity" dp = Except.ok dp.PrecipIntensity ∧
    (field ∉ supportedFields →
      getValueByFieldName field dp = Except.error ("unsupported field '" ++ field ++ "'")) := by
  refine ⟨rfl, rfl, rfl, rfl, rfl, rfl, ?_⟩
  intro h
  have h1 : field ≠ "temperature" :=
    fun he => h (he ▸ (by decide : ("temperature" : String) ∈ supportedFields))
  have h2 : field ≠ "apparent_temperature" :=
    fun he => h (he ▸ (by decide : ("apparent_temperature" : String) ∈ supportedFields))
  have h3 : field ≠ "wind_speed" :=
    fun he => h (he ▸ (by decide : ("wind_speed" : String) ∈ supportedFields))
  have h4 : field ≠ "cloud_cover" :=
    fun he => h (he ▸ (by decide : ("cloud_cover" : String) ∈ supportedFields))
  have h5 : field ≠ "humidity" :=
    fun he => h (he ▸ (by decide : ("humidity" : String) ∈ supportedFields))
  have h6 : field ≠ "precip_intensity" :=
    fun he => h (he ▸ (by decide : ("precip_intensity" : String) ∈ supportedFields))
  unfold getValueByFieldName
  rw [if_neg h1, if_neg h2, if_neg h3, if_neg h4, if_neg h5, if_neg h6]

theorem c6_witness :
    getValueByFieldName "bogus_field" dp0 = Except.error "unsupported field 'bogus_field'" ∧
    getValueByFieldName "temperature" dp0 = Except.ok (ratInt 0) :=
  ⟨(c6_closed_enumeration "bogus_field" dp0).2.2.2.2.2.2 (by decide),
   (c6_closed_enumeration "bogus_field" dp0).1⟩

/-- C7: all four startup failure conditions are fatal before the HTTP
server starts: a configuration read/parse failure, an empty location
list, an empty metric list, and a collector registration failure each end
`mainStartup` in the `fatal` outcome; conversely the `serve` outcome is
reached only when the configuration loaded, both lists are non-empty and
registration succeeded. -/
theorem c7_startup_failures_fatal :
    (∀ e r, mainStartup (Except.error e) r =
      StartupOutcome.fatal ("Failed to load configuration file: " ++ e)) ∧
    (∀ (cfg : Config) r, cfg.Locations = [] →
      mainStartup (Except.ok cfg) r =
        StartupOutcome.fatal "Must specify at least one location") ∧
    (∀ (cfg : Config) r, cfg.Locations ≠ [] → cfg.Metrics = [] →
      mainStartup (Except.ok cfg) r =
        StartupOutcome.fatal "Must specify at least one metric") ∧
    (∀ (cfg : Config) e, cfg.Locations ≠ [] → cfg.Metrics ≠ [] →
      mainStartup (Except.ok cfg) (some e) =
        StartupOutcome.fatal ("Failed to register weather collector: " ++ e)) ∧
    (∀ cr r ls ds, mainStartup cr r = StartupOutcome.serve ls ds →
      ∃ cfg, cr = Except.ok cfg ∧ cfg.Locations ≠ [] ∧ cfg.Metrics ≠ [] ∧ r = none) := by
  refine ⟨fun e r => rfl, ?_, ?_, ?_, ?_⟩
  · intro cfg r h
    simp [mainStartup, h]
  · intro cfg r h1 h2
    simp [mainStartup, h1, h2, List.length_eq_zero]
  · intro cfg e h1 h2
    simp [mainStartup, h1, h2, List.length_eq_zero]
  · intro cr r ls ds h
    cases cr with
    | error e => simp [mainStartup] at h
    | ok cfg =>
      refine ⟨cfg, rfl, ?_⟩
      by_cases hl : cfg.Locations.length = 0
      · simp [mainStartup, hl] at h
      · by_cases hm : cfg.Metrics.length = 0
        · simp [mainStartup, hl, hm] at h
        · cases r with
          | some e2 => simp [mainStartup, hl, hm] at h
          | none =>
            exact ⟨fun he => hl (by rw [he]; rfl), fun he => hm (by rw [he]; rfl), rfl⟩

theorem c7_witness :
    mainStartup (Except.ok (Config.mk [] ["temperature"] "k1" "k2")) none =
      StartupOutcome.fatal "Must specify at least one location" ∧
    mainStartup (Except.ok (Config.mk ["Dublin"] [] "k1" "k2")) none =
      StartupOutcome.fatal "Must specify at least one metric" ∧
    mainStartup (Except.error "nope") none =
      StartupOutcome.fatal ("Failed to load configuration file: " ++ "nope") ∧
    mainStartup (Except.ok (Config.mk ["Dublin"] ["temperature"] "k1" "k2")) (some "dup") =
      StartupOutcome.fatal ("Failed to register weather collector: " ++ "dup") :=
  ⟨c7_startup_failures_fatal.2.1 (Config.mk [] ["temperature"] "k1" "k2") none rfl,
   c7_startup_failures_fatal.2.2.1 (Config.mk ["Dublin"] [] "k1" "k2") none (by decide) rfl,
   c7_startup_failures_fatal.1 "nope" none,
   c7_startup_failures_fatal.2.2.2.1 (Config.mk ["Dublin"] ["temperature"] "k1" "k2") "dup"
     (by decide) (by decide)⟩

/-- C8 counterexample: two consecutive successful cycles for the same
location and metric whose forecast responses echo different latitudes;
after the second cycle the first cycle's value 10 is still exposed under
the old latitude label while the new value 20 appears under a different
label set, so the second value did not fully replace the first. -/
theorem c8_counterexample :
    updateLoc envC2 ["temperature"]
      (updateLoc envC1 ["temperature"] emptyStore "Dublin") "Dublin"
      (GaugeKey.mk "temperature" "Dublin" "1.000000" "3.000000") = some (ratInt 10) ∧
    updateLoc envC2 ["temperature"]
      (updateLoc envC1 ["temperature"] emptyStore "Dublin") "Dublin"
      (GaugeKey.mk "temperature" "Dublin" "2.000000" "3.000000") = some (ratInt 20) ∧
    GaugeKey.mk "temperature" "Dublin" "1.000000" "3.000000" ≠
      GaugeKey.mk "temperature" "Dublin" "2.000000" "3.000000" :=
  ⟨by decide, by decide, by decide⟩

/-- C8 (amended): for two consecutive successful cycles for the same
location and metric whose forecast responses carry the same formatted
coordinates (so the gauge child's label set is unchanged), the second
extracted value fully overwrites the first in the store — the entry holds
exactly the second value, with no averaging or accumulation; when the
formatted coordinates differ, the new value is written under a new label
set and the prior sample persists under the old one. -/
theorem c8_last_write_wins (env1 env2 : Env) (metrics : List String) (loc m : String)
    (fc1 fc2 : Forecast) (s : GaugeStore) (v2 : ℚ)
    (hw1 : (getWeather env1 loc).snd = Except.ok fc1)
    (hw2 : (getWeather env2 loc).snd = Except.ok fc2)
    (hlat : formatF6 fc1.Latitude = formatF6 fc2.Latitude)
    (hlng : formatF6 fc1.Longitude = formatF6 fc2.Longitude)
    (hm : m ∈ metrics) (hv2 : getValueByFieldName m fc2.Currently = Except.ok v2) :
    updateLoc env2 metrics (updateLoc env1 metrics s loc) loc
      (GaugeKey.mk m loc (formatF6 fc1.Latitude) (formatF6 fc1.Longitude)) = some v2 := by
  rw [updateLoc_ok env2 metrics _ loc fc2 hw2, hlat, hlng]
  exact writeMetrics_read metrics loc fc2 _ m v2 hm hv2

theorem c8_witness :
    updateLoc envA2 ["temperature"]
      (updateLoc envA ["temperature"] emptyStore "Dublin") "Dublin"
      (GaugeKey.mk "temperature" "Dublin" "2.000000" "3.000000") = some (ratInt 13) :=
  c8_last_write_wins envA envA2 ["temperature"] "Dublin" "temperature" fcA fcA2
    emptyStore (ratInt 13) (by decide) (by decide) rfl rfl (by decide) (by decide)

/-- C9: a supported configured metric whose numeric field is absent from
the upstream JSON response decodes to the Go zero value, so extraction
succeeds with value 0 (no error) and a sample of value 0 is published;
the decoded data point is identical to one whose fields were genuinely
0, so the extractor cannot distinguish the two. -/
theorem c9_missing_field_reads_zero (field : String) (h : field ∈ supportedFields) :
    getValueByFieldName field (decodeDataPoint none none none none none none) =
      Except.ok 0 ∧
    decodeDataPoint none none none none none none =
      decodeDataPoint (some 0) (some 0) (some 0) (some 0) (some 0) (some 0) ∧
    (CollectLoc envZero (getDescs [field]) "X").snd =
      [MetricSample.mk ("weather_" ++ field) 0
        [("location", "X"), ("latitude", "0.000000"), ("longitude", "0.000000")]] := by
  have hmem : field = "temperature" ∨ field = "apparent_temperature" ∨
      field = "wind_speed" ∨ field = "cloud_cover" ∨ field = "humidity" ∨
      field = "precip_intensity" := by
    simpa [supportedFields] using h
  rcases hmem with rfl | rfl | rfl | rfl | rfl | rfl <;>
    exact ⟨by decide, by decide, by decide⟩

theorem c9_witness :
    getValueByFieldName "humidity" (decodeDataPoint none none none none none none) =
      Except.ok 0 ∧
    (CollectLoc envZero (getDescs ["humidity"]) "X").snd =
      [MetricSample.mk "weather_humidity" 0
        [("location", "X"), ("latitude", "0.000000"), ("longitude", "0.000000")]] :=
  ⟨(c9_missing_field_reads_zero "humidity" (by decide)).1,
   (c9_missing_field_reads_zero "humidity" (by decide)).2.2⟩

/-- C10: the latitude and longitude labels of every published sample, and
of every gauge entry a cycle writes or modifies, are formatted from the
forecast response's echoed coordinates (`fc.Latitude`, `fc.Longitude`) —
not from the geocoder-resolved coordinates that were used to issue the
forecast request, with which they may differ. -/
theorem c10_labels_from_forecast (env : Env) (metrics : List String) (loc nm : String)
    (glat glng : ℚ) (rs : List GeocodeResult) (fc : Forecast) (s : GaugeStore)
    (hg : env.geocode loc = Except.ok (GeocodeResult.mk nm glat glng :: rs))
    (hf : env.forecastGet (formatF6 glat) (formatF6 glng) = Except.ok fc)
    (hu : fc.Flags.Units = forecastSI) :
    (∀ sample, sample ∈ (CollectLoc env (getDescs metrics) loc).snd →
      ("latitude", formatF6 fc.Latitude) ∈ sample.labels ∧
      ("longitude", formatF6 fc.Longitude) ∈ sample.labels) ∧
    (∀ k : GaugeKey, updateLoc env metrics s loc k ≠ s k →
      k.latitude = formatF6 fc.Latitude ∧ k.longitude = formatF6 fc.Longitude) := by
  have hw := getWeather_snd_ok env loc nm glat glng rs fc hg hf hu
  constructor
  · intro sample hs
    rcases collect_sample_shape env metrics loc fc sample hw hs with ⟨m, hm, v, hv, hsample⟩
    rw [hsample]
    exact ⟨by simp, by simp⟩
  · intro k hmod
    rw [updateLoc_ok env metrics s loc fc hw] at hmod
    exact (writeMetrics_mod metrics loc fc s k hmod).2

theorem c10_witness :
    (("latitude", "2.000000") ∈
      (MetricSample.mk "weather_temperature" qTemp
        [("location", "Dublin"), ("latitude", "2.000000"),
         ("longitude", "3.000000")]).labels ∧
     ("longitude", "3.000000") ∈
      (MetricSample.mk "weather_temperature" qTemp
        [("location", "Dublin"), ("latitude", "2.000000"),
         ("longitude", "3.000000")]).labels) ∧
    formatF6 (ratInt 1) ≠ "2.000000" := by
  have h := c10_labels_from_forecast envD ["temperature"] "Dublin" "Dublin City"
    (ratInt 1) (ratInt 3) [] fcD emptyStore rfl rfl rfl
  exact ⟨h.1 (MetricSample.mk "weather_temperature" qTemp
    [("location", "Dublin"), ("latitude", "2.000000"), ("longitude", "3.000000")])
    (by decide), by decide⟩
